import Mathlib

/-!
Verification development for the sysdash resource-monitor backend.

The definitions below are a shallow embedding of src/backend/main.go.
Go float64 arithmetic is modelled with exact rationals, Go uint64 values
with natural numbers (wrap-around written explicitly where the source can
overflow), and every fallible external probe with an Option-valued input
supplied by the environment.  The Go standard-library string helpers used
by the source (strings.TrimSpace, strings.Split, strings.SplitN,
strings.Contains, strings.HasSuffix and friends, strconv.ParseFloat,
strconv.ParseUint) are re-implemented here over character lists with the
same observable behaviour on the ASCII inputs the program handles;
strconv.ParseFloat is modelled on its decimal forms (the hexadecimal,
infinity and NaN forms are never produced by the probed tools).
-/

namespace SysDash

/-! ## Go string helpers -/

/-- ASCII lower-casing of one character, as strings.ToLower acts on ASCII. -/
def asciiLower (c : Char) : Char :=
  if 'A' ≤ c ∧ c ≤ 'Z' then Char.ofNat (c.toNat + 32) else c

/-- strings.ToLower, on ASCII data. -/
def goToLower (s : String) : String :=
  ⟨s.data.map asciiLower⟩

/-- Whitespace characters trimmed by strings.TrimSpace (ASCII part of unicode.IsSpace). -/
def isSpaceChar (c : Char) : Bool :=
  c = ' ' ∨ c = '\t' ∨ c = '\n' ∨ c = '\r' ∨ c = '\x0b' ∨ c = '\x0c'

/-- strings.TrimSpace. -/
def goTrim (s : String) : String :=
  ⟨((s.data.dropWhile isSpaceChar).reverse.dropWhile isSpaceChar).reverse⟩

/-- strings.HasPrefix. -/
def goStartsWith (s p : String) : Bool :=
  p.data.isPrefixOf s.data

/-- strings.HasSuffix. -/
def goHasSuffix (s suf : String) : Bool :=
  suf.data.reverse.isPrefixOf s.data.reverse

/-- strings.TrimSuffix. -/
def goTrimSuffix (s suf : String) : String :=
  if goHasSuffix s suf then ⟨s.data.take (s.data.length - suf.data.length)⟩ else s

/-- Drop the first n characters of a string. -/
def goDrop (s : String) (n : ℕ) : String :=
  ⟨s.data.drop n⟩

/-- If sep is a prefix of s, return the remainder of s after it. -/
def dropSepHead : List Char → List Char → Option (List Char)
  | [], s => some s
  | _, [] => none
  | c :: cs, d :: ds => if c = d then dropSepHead cs ds else none

/-- Worker for strings.Split: scans s left to right, cutting at each occurrence
of sep.  The fuel argument bounds the number of scanning steps; it is always
called with enough fuel (one more than the length of s) that the fuel-exhausted
branch is unreachable for the nonempty separators the source uses. -/
def goSplitAux (sep : List Char) : ℕ → List Char → List Char → List (List Char)
  | 0, acc, rest => [acc.reverse ++ rest]
  | fuel + 1, acc, s =>
    match s with
    | [] => [acc.reverse]
    | c :: cs =>
      match dropSepHead sep s with
      | some rest => acc.reverse :: goSplitAux sep fuel [] rest
      | none => goSplitAux sep fuel (c :: acc) cs

/-- strings.Split with a nonempty separator. -/
def goSplit (s sep : String) : List String :=
  (goSplitAux sep.data (s.data.length + 1) [] s.data).map (fun l => ⟨l⟩)

/-- strings.Contains (for the nonempty needles used by the source). -/
def strContains (s sub : String) : Bool :=
  sub = "" ∨ 1 < (goSplit s sub).length

/-- Join a list of strings with a separator between elements. -/
def joinSep (sep : String) : List String → String
  | [] => ""
  | [x] => x
  | x :: xs => x ++ sep ++ joinSep sep xs

/-- strings.SplitN with n = 2: at most one cut, at the first occurrence of sep. -/
def splitN2 (s sep : String) : List String :=
  match goSplit s sep with
  | [] => []
  | [x] => [x]
  | x :: rest => [x, joinSep sep rest]

/-! ## Go numeric parsing -/

/-- Numeric value of a digit list (most significant first). -/
def digitsVal (cs : List Char) : ℕ :=
  cs.foldl (fun a c => a * 10 + (c.toNat - 48)) 0

/-- True when every character is an ASCII digit. -/
def allDigits (cs : List Char) : Bool :=
  cs.all Char.isDigit

/-- A nonempty all-digit run, or failure. -/
def parseUDigits (cs : List Char) : Option ℕ :=
  if cs.isEmpty then none
  else if allDigits cs then some (digitsVal cs) else none

/-- strconv.ParseUint base 10 with the error discarded, as the source uses it:
a syntax error yields 0 (the zero value of the discarded result) and a range
error yields the maximum uint64 value, which ParseUint returns on overflow. -/
def parseUintD (s : String) : ℕ :=
  if s.data.isEmpty then 0
  else if allDigits s.data then
    if digitsVal s.data < 2 ^ 64 then digitsVal s.data else 2 ^ 64 - 1
  else 0

/-- The syntactic content of a decimal float literal: sign, integer digits,
fraction digits with their count, exponent sign and exponent digits.  Keeping
this front-end over naturals and booleans separates the string analysis of
strconv.ParseFloat from the (exact rational) value it denotes. -/
structure FloatSyntax where
  neg : Bool
  intPart : ℕ
  fracPart : ℕ
  fracLen : ℕ
  eneg : Bool
  expPart : ℕ
deriving DecidableEq

/-- Decimal mantissa of a float literal: digits with an optional single dot,
at least one digit present. -/
def parseMantissa (s : String) : Option (ℕ × ℕ × ℕ) :=
  match goSplit s "." with
  | [w] => Option.map (fun n => (n, 0, 0)) (parseUDigits w.data)
  | [w, f] =>
    if w.data.isEmpty ∧ f.data.isEmpty then none
    else if allDigits w.data ∧ allDigits f.data then
      some (digitsVal w.data, digitsVal f.data, f.data.length)
    else none
  | _ => none

/-- Syntax analysis of strconv.ParseFloat, modelled on its decimal forms:
optional sign, decimal mantissa, optional decimal exponent. -/
def parseFloatSyntax (s : String) : Option FloatSyntax :=
  if s.data.isEmpty then none
  else
    let sgn : Bool := goStartsWith s "-"
    let s1 : String :=
      if goStartsWith s "-" ∨ goStartsWith s "+" then goDrop s 1 else s
    match goSplit (goToLower s1) "e" with
    | [m] =>
      Option.map (fun p => ⟨sgn, p.1, p.2.1, p.2.2, false, 0⟩) (parseMantissa m)
    | [m, e] =>
      match parseMantissa m with
      | none => none
      | some p =>
        let esgn : Bool := goStartsWith e "-"
        let e1 : String :=
          if goStartsWith e "-" ∨ goStartsWith e "+" then goDrop e 1 else e
        match parseUDigits e1.data with
        | none => none
        | some ev => some ⟨sgn, p.1, p.2.1, p.2.2, esgn, ev⟩
    | _ => none

/-- The exact rational value denoted by a decimal float literal. -/
def ratOfFloatSyntax (f : FloatSyntax) : ℚ :=
  (if f.neg then -1 else 1) * ((f.intPart : ℚ) + (f.fracPart : ℚ) / (10 : ℚ) ^ f.fracLen) *
    (10 : ℚ) ^ ((if f.eneg then -1 else 1) * (f.expPart : ℤ))

/-- strconv.ParseFloat, modelled on its decimal forms with exact rational
arithmetic in place of float64 rounding. -/
def parseGoFloat (s : String) : Option ℚ :=
  Option.map ratOfFloatSyntax (parseFloatSyntax s)

/-- strconv.ParseFloat with the error discarded, as the source uses it:
on a syntax error the discarded result leaves the zero value 0. -/
def parseFloatD (s : String) : ℚ :=
  (parseGoFloat s).getD 0

/-- The Go conversion uint64(x) for a float x: truncation toward zero.  For
negative or overflowing inputs Go leaves the result implementation-defined;
those cases are never reached by the probed tool outputs and are modelled as
clamping at 0 via Int.toNat. -/
def goUint64OfRat (q : ℚ) : ℕ :=
  Int.toNat ⌊q⌋

/-! ## GPU probe (getGPUStats and its backends) -/

/-- GPUStats from main.go: name, VRAM total and used in bytes, utilization
percentage and temperature. -/
structure GPUStats where
  name : String
  memoryTotal : ℕ
  memoryUsed : ℕ
  usedPercent : ℚ
  temperature : ℚ
deriving DecidableEq

/-- The multiplier and remaining string chosen by the suffix chain of
parseMemoryValue (gb, then mb, then kb, else none). -/
def memSuffixSplit (s : String) : ℕ × String :=
  if goHasSuffix s "gb" then (1073741824, goTrimSuffix s "gb")
  else if goHasSuffix s "mb" then (1048576, goTrimSuffix s "mb")
  else if goHasSuffix s "kb" then (1024, goTrimSuffix s "kb")
  else (1, s)

/-- parseMemoryValue from main.go: lower-case and trim, strip a recognized
unit suffix to pick a 1024-based multiplier, parse the rest as a float with
the error discarded, multiply and convert to uint64. -/
def parseMemoryValue (s : String) : ℕ :=
  goUint64OfRat (parseFloatD (goTrim (memSuffixSplit (goToLower (goTrim s))).2) *
    ((memSuffixSplit (goToLower (goTrim s))).1 : ℚ))

/-- One scanner line of parseRocmSMI: each recognized key updates one field
of the accumulated GPUStats record, exactly in the order of the source. -/
def rocmLine (g : GPUStats) (raw : String) : GPUStats :=
  let line := goTrim raw
  let g1 :=
    if strContains line "Card series:" then
      match splitN2 line ":" with
      | [_, v] => { g with name := goTrim v }
      | _ => g
    else g
  let g2 :=
    if strContains line "GPU use (%)" then
      match splitN2 line ":" with
      | [_, v] => { g1 with usedPercent := parseFloatD (goTrim (goTrimSuffix v "%")) }
      | _ => g1
    else g1
  let g3 :=
    if strContains line "Temperature" ∧ strContains line "edge" then
      match splitN2 line ":" with
      | [_, v] => { g2 with temperature := parseFloatD (goTrim (goTrimSuffix v "c")) }
      | _ => g2
    else g2
  let g4 :=
    if strContains line "VRAM Total Memory" then
      match splitN2 line ":" with
      | [_, v] => { g3 with memoryTotal := parseMemoryValue (goTrim v) }
      | _ => g3
    else g3
  if strContains line "VRAM Total Used Memory" then
    match splitN2 line ":" with
    | [_, v] => { g4 with memoryUsed := parseMemoryValue (goTrim v) }
    | _ => g4
  else g4

/-- parseRocmSMI from main.go: scan the rocm-smi output line by line and
return the accumulated record, or nothing when no Card series line named a
device.  The bufio line scanner is modelled by splitting on newlines; a
trailing empty line is inert since no key matches it. -/
def parseRocmSMI (output : String) : Option GPUStats :=
  let g := (goSplit output "\n").foldl rocmLine ⟨"", 0, 0, 0, 0⟩
  if g.name = "" then none else some g

/-- One candidate directory of /sys/class/drm as getAMDFromSysfs reads it:
the directory name and the contents of each file it may open, with none
standing for a read error. -/
structure SysfsCard where
  dirName : String
  vendor : Option String
  productName : Option String
  memTotalFile : Option String
  memUsedFile : Option String
  hwmonTemps : List (Option String)
  busyFile : Option String
deriving DecidableEq

/-- The first readable hwmon temp1_input value divided by 1000, or 0 when
none can be read, as in the hwmon loop of getAMDFromSysfs. -/
def firstHwmonTemp : List (Option String) → ℚ
  | [] => 0
  | some t :: _ => parseFloatD (goTrim t) / 1000
  | none :: rest => firstHwmonTemp rest

/-- The reading getAMDFromSysfs extracts from one candidate card directory:
none when the directory is skipped (name filter, unreadable or non-AMD
vendor id, or an empty device name). -/
def sysfsCardGPU (c : SysfsCard) : Option GPUStats :=
  if goStartsWith c.dirName "card" ∧ ¬ strContains c.dirName "-" then
    match c.vendor with
    | none => none
    | some v =>
      if strContains v "0x1002" then
        let name :=
          match c.productName with
          | some n => goTrim n
          | none => "AMD GPU"
        let memTotal :=
          match c.memTotalFile with
          | some t => parseUintD (goTrim t)
          | none => 0
        let memUsed :=
          match c.memUsedFile with
          | some u => parseUintD (goTrim u)
          | none => 0
        let busy :=
          match c.busyFile with
          | some b => parseFloatD (goTrim b)
          | none => 0
        let g : GPUStats := ⟨name, memTotal, memUsed, busy, firstHwmonTemp c.hwmonTemps⟩
        if g.name ≠ "" then some g else none
      else none
  else none

/-- The directory scan of getAMDFromSysfs: first card that yields a reading. -/
def sysfsScan : List SysfsCard → Option GPUStats
  | [] => none
  | c :: cs =>
    match sysfsCardGPU c with
    | some g => some g
    | none => sysfsScan cs

/-- getAMDFromSysfs from main.go; the whole directory listing is none when
ReadDir on /sys/class/drm fails. -/
def getAMDFromSysfs : Option (List SysfsCard) → Option GPUStats
  | none => none
  | some dirs => sysfsScan dirs

/-- getNVIDIAGPU from main.go: none when the nvidia-smi command fails,
otherwise the trimmed output is split on comma-space; fewer than five fields
is a failure, and memory values (MiB) are converted to bytes with uint64
multiplication. -/
def getNVIDIAGPU : Option String → Option GPUStats
  | none => none
  | some output =>
    let line := goTrim output
    let parts := goSplit line ", "
    if parts.length < 5 then none
    else
      some
        { name := parts.getD 0 ""
          memoryTotal := parseUintD (parts.getD 1 "") * 1024 * 1024 % 2 ^ 64
          memoryUsed := parseUintD (parts.getD 2 "") * 1024 * 1024 % 2 ^ 64
          usedPercent := parseFloatD (parts.getD 3 "")
          temperature := parseFloatD (parts.getD 4 "") }

/-- getWindowsGPU from main.go: none when the PowerShell command fails,
otherwise name and total memory split on a pipe; usage, used memory and
temperature are reported as zero. -/
def getWindowsGPU : Option String → Option GPUStats
  | none => none
  | some output =>
    let line := goTrim output
    let parts := goSplit line "|"
    if parts.length < 2 ∨ parts.getD 0 "" = "" then none
    else
      some
        { name := goTrim (parts.getD 0 "")
          memoryTotal := parseUintD (goTrim (parts.getD 1 ""))
          memoryUsed := 0
          usedPercent := 0
          temperature := 0 }

/-- The external command and filesystem results available to one GPU probe
invocation; none models a failed command or unreadable directory. -/
structure GPUEnv where
  goos : String
  rocm : Option String
  sysfs : Option (List SysfsCard)
  nvidia : Option String
  windowsWMI : Option String
deriving DecidableEq

/-- getAMDGPU from main.go: rocm-smi output is parsed when the command
succeeds; the sysfs fallback is consulted only when the command itself
fails. -/
def getAMDGPU (env : GPUEnv) : Option GPUStats :=
  match env.rocm with
  | some output => parseRocmSMI output
  | none => getAMDFromSysfs env.sysfs

/-- getGPUStats from main.go: AMD backends on Linux, then NVIDIA on any
platform, then WMI on Windows; the first backend returning a reading wins
and the result is absent when all return nothing. -/
def getGPUStats (env : GPUEnv) : Option GPUStats :=
  match (if env.goos = "linux" then getAMDGPU env else none) with
  | some g => some g
  | none =>
    match getNVIDIAGPU env.nvidia with
    | some g => some g
    | none => if env.goos = "windows" then getWindowsGPU env.windowsWMI else none

/-! ## CPU delta tracker (updateCPUPercents) -/

/-- One entry of cpu.Times(true): the eight cumulative per-core time buckets
used by updateCPUPercents, as exact rationals in place of float64. -/
structure TimesStat where
  user : ℚ
  system : ℚ
  idle : ℚ
  nice : ℚ
  iowait : ℚ
  irq : ℚ
  softirq : ℚ
  steal : ℚ
deriving DecidableEq, Inhabited

/-- The eight-bucket sum that updateCPUPercents forms for one sample. -/
def bucketSum (t : TimesStat) : ℚ :=
  t.user + t.system + t.idle + t.nice + t.iowait + t.irq + t.softirq + t.steal

/-- totalDelta of core i between the previous and current sample. -/
def coreTotalDelta (prev times : List TimesStat) (i : ℕ) : ℚ :=
  bucketSum (times.getD i default) - bucketSum (prev.getD i default)

/-- idleDelta of core i between the previous and current sample. -/
def coreIdleDelta (prev times : List TimesStat) (i : ℕ) : ℚ :=
  (times.getD i default).idle - (prev.getD i default).idle

/-- The utilization percentage updateCPUPercents computes for core i. -/
def corePercent (prev times : List TimesStat) (i : ℕ) : ℚ :=
  100 * (1 - coreIdleDelta prev times i / coreTotalDelta prev times i)

/-- The body of one loop iteration of updateCPUPercents: write the new
percentage at index i when totalDelta is positive, otherwise leave the
vector unchanged. -/
def cpuWrite (prev times : List TimesStat) (i : ℕ) (ps : List ℚ) : List ℚ :=
  if 0 < coreTotalDelta prev times i then ps.set i (corePercent prev times i) else ps

/-- The loop of updateCPUPercents over the current sample, with the break at
the first index not present in the previous sample.  The fuel argument
bounds the number of iterations and is always supplied as the length of the
current sample, which the loop never exceeds. -/
def cpuLoop (prev times : List TimesStat) : ℕ → ℕ → List ℚ → List ℚ
  | 0, _, ps => ps
  | fuel + 1, i, ps =>
    if i < times.length then
      if i < prev.length then
        cpuLoop prev times fuel (i + 1) (cpuWrite prev times i ps)
      else ps
    else ps

/-- The delta tracker state: the previous cpu.Times sample and the shared
percentage vector. -/
structure CPUState where
  prev : Option (List TimesStat)
  percents : List ℚ
deriving DecidableEq

/-- updateCPUPercents from main.go, for one successfully read sample: on the
first call the previous sample is recorded and the vector becomes all zeros
of the sample cardinality; afterwards the loop updates the vector and the
previous sample is replaced wholesale. -/
def updateCPUPercentsFn (st : CPUState) (times : List TimesStat) : CPUState :=
  match st.prev with
  | none => { prev := some times, percents := List.replicate times.length 0 }
  | some prev =>
    { prev := some times, percents := cpuLoop prev times times.length 0 st.percents }

/-- getCPUPercents from main.go returns a copy of the vector; a copy is
equal to the vector itself. -/
def getCPUPercents (st : CPUState) : List ℚ :=
  st.percents

/-! ## Snapshot assembly, collector loop, cache and pull handler -/

/-- CPUStats of the assembled snapshot. -/
structure CPUStats where
  model : String
  cores : ℕ
  threads : ℕ
  percent : List ℚ
deriving DecidableEq

/-- MemStats of the assembled snapshot. -/
structure MemStats where
  total : ℕ
  used : ℕ
  available : ℕ
  usedPercent : ℚ
deriving DecidableEq

/-- DiskStats of the assembled snapshot. -/
structure DiskStats where
  path : String
  total : ℕ
  used : ℕ
  free : ℕ
  usedPercent : ℚ
deriving DecidableEq

/-- NetStats of the assembled snapshot: one interface with its counters. -/
structure NetStats where
  name : String
  bytesSent : ℕ
  bytesRecv : ℕ
deriving DecidableEq

/-- Stats from main.go: the immutable snapshot published to the cache. -/
structure Stats where
  hostname : String
  uptime : ℕ
  os : String
  arch : String
  cpu : CPUStats
  memory : MemStats
  disk : DiskStats
  network : List NetStats
  gpu : Option GPUStats
deriving DecidableEq

/-- The reading of mem.VirtualMemory. -/
structure MemInfo where
  total : ℕ
  used : ℕ
  available : ℕ
  usedPercent : ℚ
deriving DecidableEq

/-- The reading of disk.Usage. -/
structure DiskInfo where
  total : ℕ
  used : ℕ
  free : ℕ
  usedPercent : ℚ
deriving DecidableEq

/-- One entry of net.IOCounters(true). -/
structure NetIO where
  name : String
  bytesSent : ℕ
  bytesRecv : ℕ
deriving DecidableEq

/-- The reading of host.Info used per tick: the uptime. -/
structure HostInfo where
  uptime : ℕ
deriving DecidableEq

/-- The results of the five concurrent probe goroutines of one
getStatsNonBlocking call; none models a failed probe.  The GPU entry is the
result of getGPUStats, already an Option. -/
structure ProbeEnv where
  memInfo : Option MemInfo
  diskInfo : Option DiskInfo
  netInfo : Option (List NetIO)
  gpuStats : Option GPUStats
  hostInfo : Option HostInfo
deriving DecidableEq

/-- The configuration fields getStatsNonBlocking and initStaticInfo read. -/
structure ConfigM where
  diskPath : String
  hostname : String
deriving DecidableEq

/-- Ambient runtime facts: GOOS, GOARCH and NumCPU. -/
structure SysEnv where
  goos : String
  goarch : String
  numCPU : ℕ
deriving DecidableEq

/-- The static identity resolved once at startup. -/
structure StaticInfo where
  hostname : String
  cpuModel : String
  cpuCores : ℕ
deriving DecidableEq

/-- One entry of cpu.Info(). -/
structure CPUInfoStat where
  modelName : String
  cores : ℕ
deriving DecidableEq

/-- The startup environment initStaticInfo reads; physicalCores is none when
cpu.Counts(false) fails. -/
structure StaticEnv where
  osHostname : String
  cpuInfo : List CPUInfoStat
  physicalCores : Option ℕ
deriving DecidableEq

/-- initStaticInfo from main.go: hostname override, CPU model from the first
cpu.Info entry, and the physical core count with its fallbacks. -/
def initStaticInfo (cfg : ConfigM) (e : StaticEnv) : StaticInfo :=
  { hostname := if cfg.hostname ≠ "" then cfg.hostname else e.osHostname
    cpuModel :=
      match e.cpuInfo with
      | c :: _ => c.modelName
      | [] => ""
    cpuCores :=
      match e.physicalCores with
      | some c =>
        if 0 < c then c
        else
          match e.cpuInfo with
          | c0 :: _ => c0.cores
          | [] => 0
      | none =>
        match e.cpuInfo with
        | c0 :: _ => c0.cores
        | [] => 0 }

/-- The network goroutine of getStatsNonBlocking: a failed IOCounters call
leaves the slice empty, and only interfaces with nonzero traffic are kept,
in order. -/
def buildNetStats (o : Option (List NetIO)) : List NetStats :=
  ((o.getD []).filter fun n => 0 < n.bytesSent ∨ 0 < n.bytesRecv).map
    fun n => ⟨n.name, n.bytesSent, n.bytesRecv⟩

/-- getStatsNonBlocking from main.go, after the probe goroutines are joined:
an error (none) when the memory or disk reading is missing, otherwise the
assembled snapshot, with a missing uptime reading as 0 and the GPU field
as the probe produced it. -/
def getStatsNonBlocking (cfg : ConfigM) (static : StaticInfo) (sys : SysEnv)
    (env : ProbeEnv) (percents : List ℚ) : Option Stats :=
  match env.memInfo, env.diskInfo with
  | some m, some d =>
    some
      { hostname := static.hostname
        uptime := (Option.map HostInfo.uptime env.hostInfo).getD 0
        os := sys.goos
        arch := sys.goarch
        cpu :=
          { model := static.cpuModel
            cores := static.cpuCores
            threads := sys.numCPU
            percent := percents }
        memory := ⟨m.total, m.used, m.available, m.usedPercent⟩
        disk := ⟨cfg.diskPath, d.total, d.used, d.free, d.usedPercent⟩
        network := buildNetStats env.netInfo
        gpu := env.gpuStats }
  | _, _ => none

/-- The external readings consumed by one iteration of the collector loop:
the cpu.Times sample (none when the call fails) and the five probe results. -/
structure TickInput where
  cpuTimes : Option (List TimesStat)
  probes : ProbeEnv
deriving DecidableEq

/-- The cpu.Times update at the head of a tick: a failed read returns with
the tracker state unchanged. -/
def cpuStep (st : CPUState) : Option (List TimesStat) → CPUState
  | none => st
  | some ts => updateCPUPercentsFn st ts

/-- One iteration of collectStats: update the CPU tracker, then assemble;
on assembly error the cache is left untouched, otherwise the snapshot is
published. -/
def tick1 (cfg : ConfigM) (static : StaticInfo) (sys : SysEnv)
    (st : Option Stats × CPUState) (inp : TickInput) : Option Stats × CPUState :=
  let cst := cpuStep st.2 inp.cpuTimes
  match getStatsNonBlocking cfg static sys inp.probes (getCPUPercents cst) with
  | none => (st.1, cst)
  | some s => (some s, cst)

/-- The collector loop run over a finite list of tick inputs, starting from
a given cache and tracker state. -/
def runTicks (cfg : ConfigM) (static : StaticInfo) (sys : SysEnv)
    (st : Option Stats × CPUState) (inputs : List TickInput) : Option Stats × CPUState :=
  inputs.foldl (tick1 cfg static sys) st

/-- A tick input whose mandatory memory or disk probe failed. -/
def badInput (inp : TickInput) : Prop :=
  inp.probes.memInfo = none ∨ inp.probes.diskInfo = none

instance (inp : TickInput) : Decidable (badInput inp) := by
  unfold badInput
  infer_instance

/-- getCachedStats from main.go: a read of the single cache slot. -/
def getCachedStats (cache : Option Stats) : Option Stats :=
  cache

/-- The two responses of the pull handler. -/
inductive PullResponse
  | unavailable
  | ok (s : Stats)
deriving DecidableEq

/-- handleStats from main.go: a 503 not-yet-available response when the
cache is empty, otherwise the cached snapshot encoded as-is. -/
def handleStats (cache : Option Stats) : PullResponse :=
  match getCachedStats cache with
  | none => PullResponse.unavailable
  | some s => PullResponse.ok s

/-! ## Helper lemmas about the delta-tracker loop -/

lemma cpuWrite_length (prev times : List TimesStat) (i : ℕ) (ps : List ℚ) :
    (cpuWrite prev times i ps).length = ps.length := by
  unfold cpuWrite
  split <;> simp

lemma cpuLoop_length (prev times : List TimesStat) :
    ∀ fuel i ps, (cpuLoop prev times fuel i ps).length = ps.length := by
  intro fuel
  induction fuel with
  | zero => intro i ps; rfl
  | succ n ih =>
    intro i ps
    show (cpuLoop prev times (n + 1) i ps).length = ps.length
    unfold cpuLoop
    split
    · split
      · rw [ih, cpuWrite_length]
      · rfl
    · rfl

lemma cpuWrite_getElem?_ne (prev times : List TimesStat) (i j : ℕ) (ps : List ℚ)
    (h : i ≠ j) : (cpuWrite prev times i ps)[j]? = ps[j]? := by
  unfold cpuWrite
  split
  · rw [List.getElem?_set, if_neg h]
  · rfl

/-- Pointwise characterization of the updateCPUPercents loop: index j of the
result was rewritten exactly when it lies in the processed range, both
samples cover it and the total delta there is positive; otherwise the old
entry survives. -/
lemma cpuLoop_getElem? (prev times : List TimesStat) :
    ∀ fuel i ps j, times.length ≤ i + fuel →
      (cpuLoop prev times fuel i ps)[j]? =
        if i ≤ j ∧ j < times.length ∧ j < prev.length ∧ 0 < coreTotalDelta prev times j then
          (ps.set j (corePercent prev times j))[j]?
        else ps[j]? := by
  intro fuel
  induction fuel with
  | zero =>
    intro i ps j hfuel
    rw [if_neg]
    · rfl
    · rintro ⟨h1, h2, -, -⟩
      omega
  | succ n ih =>
    intro i ps j hfuel
    show (cpuLoop prev times (n + 1) i ps)[j]? = _
    unfold cpuLoop
    split
    · split
      · rw [ih (i + 1) _ j (by omega)]
        rcases Nat.lt_trichotomy i j with hij | hij | hij
        · -- j strictly after the current index: conditions coincide
          by_cases hc : j < times.length ∧ j < prev.length ∧ 0 < coreTotalDelta prev times j
          · rw [if_pos ⟨by omega, hc⟩, if_pos ⟨by omega, hc⟩]
            unfold cpuWrite
            split
            · rw [List.getElem?_set, List.getElem?_set, List.getElem?_set,
                if_neg (by omega : ¬ i = j), List.length_set]
            · rfl
          · rw [if_neg (by tauto), if_neg (by tauto),
              cpuWrite_getElem?_ne prev times i j ps (by omega)]
        · -- j is the current index: it is written here and never after
          subst hij
          rw [if_neg (by rintro ⟨h1, -⟩; omega)]
          by_cases htd : 0 < coreTotalDelta prev times i
          · rw [if_pos ⟨le_refl i, by assumption, by assumption, htd⟩]
            unfold cpuWrite
            rw [if_pos htd]
          · rw [if_neg (by tauto)]
            unfold cpuWrite
            rw [if_neg htd]
        · -- j before the current index: untouched on both sides
          rw [if_neg (by rintro ⟨h1, -⟩; omega), if_neg (by rintro ⟨h1, -⟩; omega),
            cpuWrite_getElem?_ne prev times i j ps (by omega)]
      · rw [if_neg]
        rintro ⟨h1, -, h3, -⟩
        omega
    · rw [if_neg]
      rintro ⟨h1, h2, -, -⟩
      omega

/-! ## Helper lemmas about ticks and the cache -/

lemma getStatsNonBlocking_eq_none_iff (cfg : ConfigM) (static : StaticInfo) (sys : SysEnv)
    (env : ProbeEnv) (ps : List ℚ) :
    getStatsNonBlocking cfg static sys env ps = none ↔
      (env.memInfo = none ∨ env.diskInfo = none) := by
  unfold getStatsNonBlocking
  rcases env.memInfo with - | m <;> rcases env.diskInfo with - | d <;> simp

lemma tick1_fst_of_bad (cfg : ConfigM) (static : StaticInfo) (sys : SysEnv)
    (st : Option Stats × CPUState) (inp : TickInput) (h : badInput inp) :
    (tick1 cfg static sys st inp).1 = st.1 := by
  have hn : getStatsNonBlocking cfg static sys inp.probes
      (getCPUPercents (cpuStep st.2 inp.cpuTimes)) = none :=
    (getStatsNonBlocking_eq_none_iff _ _ _ _ _).mpr h
  simp only [tick1, hn]

lemma tick1_fst_of_good (cfg : ConfigM) (static : StaticInfo) (sys : SysEnv)
    (st : Option Stats × CPUState) (inp : TickInput) (h : ¬ badInput inp) :
    (tick1 cfg static sys st inp).1 =
      getStatsNonBlocking cfg static sys inp.probes
        (getCPUPercents (cpuStep st.2 inp.cpuTimes)) := by
  rcases hr : getStatsNonBlocking cfg static sys inp.probes
      (getCPUPercents (cpuStep st.2 inp.cpuTimes)) with - | s
  · exact absurd ((getStatsNonBlocking_eq_none_iff _ _ _ _ _).mp hr) h
  · simp only [tick1, hr]

lemma tick1_fst_isSome (cfg : ConfigM) (static : StaticInfo) (sys : SysEnv)
    (st : Option Stats × CPUState) (inp : TickInput) (h : st.1.isSome) :
    ((tick1 cfg static sys st inp).1).isSome := by
  rcases hr : getStatsNonBlocking cfg static sys inp.probes
      (getCPUPercents (cpuStep st.2 inp.cpuTimes)) with - | s
  · simpa only [tick1, hr] using h
  · simp only [tick1, hr, Option.isSome_some]

lemma runTicks_append (cfg : ConfigM) (static : StaticInfo) (sys : SysEnv)
    (st : Option Stats × CPUState) (a b : List TickInput) :
    runTicks cfg static sys st (a ++ b) = runTicks cfg static sys (runTicks cfg static sys st a) b :=
  List.foldl_append _ _ _ _

lemma runTicks_fst_of_allbad (cfg : ConfigM) (static : StaticInfo) (sys : SysEnv) :
    ∀ (l : List TickInput) (st : Option Stats × CPUState),
      (∀ x ∈ l, badInput x) → (runTicks cfg static sys st l).1 = st.1 := by
  intro l
  induction l with
  | nil => intro st _; rfl
  | cons a t ih =>
    intro st h
    show (runTicks cfg static sys (tick1 cfg static sys st a) t).1 = st.1
    rw [ih _ fun x hx => h x (List.mem_cons_of_mem a hx),
      tick1_fst_of_bad cfg static sys st a (h a (List.mem_cons_self a t))]

lemma runTicks_fst_isSome (cfg : ConfigM) (static : StaticInfo) (sys : SysEnv) :
    ∀ (l : List TickInput) (st : Option Stats × CPUState),
      st.1.isSome → ((runTicks cfg static sys st l).1).isSome := by
  intro l
  induction l with
  | nil => intro st h; exact h
  | cons a t ih =>
    intro st h
    exact ih _ (tick1_fst_isSome cfg static sys st a h)

lemma updateCPU_getElem? (prev times : List TimesStat) (ps : List ℚ) (i : ℕ)
    (hi : i < times.length) (hip : i < prev.length) (hips : i < ps.length) :
    (updateCPUPercentsFn ⟨some prev, ps⟩ times).percents[i]? =
      if 0 < coreTotalDelta prev times i then some (corePercent prev times i)
      else ps[i]? := by
  show (cpuLoop prev times times.length 0 ps)[i]? = _
  rw [cpuLoop_getElem? prev times times.length 0 ps i (by omega)]
  by_cases htd : 0 < coreTotalDelta prev times i
  · rw [if_pos ⟨Nat.zero_le i, hi, hip, htd⟩, if_pos htd, List.getElem?_set,
      if_pos rfl, if_pos hips]
  · rw [if_neg (by tauto), if_neg htd]

lemma updateCPU_getElem?_untouched (prev times : List TimesStat) (ps : List ℚ) (j : ℕ)
    (h : times.length ≤ j ∨ prev.length ≤ j) :
    (updateCPUPercentsFn ⟨some prev, ps⟩ times).percents[j]? = ps[j]? := by
  show (cpuLoop prev times times.length 0 ps)[j]? = _
  rw [cpuLoop_getElem? prev times times.length 0 ps j (by omega), if_neg]
  rintro ⟨-, h2, h3, -⟩
  omega

/-! ## Claim theorems -/

/-- C2: for successive samples of equal cardinality and any core index i in
range, the delta tracker writes 100 * (1 - idle_delta / total_delta) at i
when total_delta is positive, and otherwise retains the previous vector
entry at i unchanged. -/
theorem delta_tracker_formula (prev times : List TimesStat) (ps : List ℚ) (i : ℕ)
    (hcard : times.length = prev.length) (hps : ps.length = prev.length)
    (hi : i < times.length) :
    (updateCPUPercentsFn ⟨some prev, ps⟩ times).percents[i]? =
      if 0 < coreTotalDelta prev times i then
        some (100 * (1 - coreIdleDelta prev times i / coreTotalDelta prev times i))
      else ps[i]? := by
  rw [updateCPU_getElem? prev times ps i hi (by omega) (by omega)]
  rfl

def prevC2 : List TimesStat := [⟨0, 0, 0, 0, 0, 0, 0, 0⟩]

def timesC2 : List TimesStat := [⟨50, 0, 50, 0, 0, 0, 0, 0⟩]

/-- Witness for C2 at one core with total_delta = 100 and idle_delta = 50. -/
theorem delta_tracker_formula_witness :
    (updateCPUPercentsFn ⟨some prevC2, [0]⟩ timesC2).percents[0]? = some 50 := by
  have h := delta_tracker_formula prevC2 timesC2 [0] 0 rfl rfl (by decide)
  rw [h, if_pos]
  · norm_num [coreIdleDelta, coreTotalDelta, bucketSum, timesC2, prevC2, List.getD]
  · norm_num [coreTotalDelta, bucketSum, timesC2, prevC2, List.getD]

/-- Both samples cover index j and every bucket is non-decreasing there. -/
def bucketsMono (p t : TimesStat) : Prop :=
  p.user ≤ t.user ∧ p.system ≤ t.system ∧ p.idle ≤ t.idle ∧ p.nice ≤ t.nice ∧
    p.iowait ≤ t.iowait ∧ p.irq ≤ t.irq ∧ p.softirq ≤ t.softirq ∧ p.steal ≤ t.steal

instance (p t : TimesStat) : Decidable (bucketsMono p t) := by
  unfold bucketsMono
  infer_instance

/-- C4: with monotonically non-decreasing buckets and positive total_delta
at core i, the utilization the tracker computes at i lies in [0, 100]. -/
theorem utilization_in_range (prev times : List TimesStat) (ps : List ℚ) (i : ℕ)
    (hcard : times.length = prev.length) (hps : ps.length = prev.length)
    (hmono : ∀ j, j < times.length →
      bucketsMono (prev.getD j default) (times.getD j default))
    (hi : i < times.length) (htd : 0 < coreTotalDelta prev times i) :
    ∃ q, (updateCPUPercentsFn ⟨some prev, ps⟩ times).percents[i]? = some q ∧
      0 ≤ q ∧ q ≤ 100 := by
  refine ⟨corePercent prev times i, ?_, ?_, ?_⟩
  · rw [updateCPU_getElem? prev times ps i hi (by omega) (by omega), if_pos htd]
  · have hm := hmono i hi
    obtain ⟨h1, h2, h3, h4, h5, h6, h7, h8⟩ := hm
    have hle : coreIdleDelta prev times i ≤ coreTotalDelta prev times i := by
      unfold coreIdleDelta coreTotalDelta bucketSum
      linarith
    have hq : coreIdleDelta prev times i / coreTotalDelta prev times i ≤ 1 :=
      (div_le_one htd).mpr hle
    unfold corePercent
    linarith
  · have hm := hmono i hi
    obtain ⟨h1, h2, h3, h4, h5, h6, h7, h8⟩ := hm
    have hnn : 0 ≤ coreIdleDelta prev times i := by
      unfold coreIdleDelta
      linarith
    have hq : 0 ≤ coreIdleDelta prev times i / coreTotalDelta prev times i :=
      div_nonneg hnn (le_of_lt htd)
    unfold corePercent
    linarith

def prevC4 : List TimesStat := [⟨10, 5, 100, 0, 0, 0, 0, 0⟩]

def timesC4 : List TimesStat := [⟨40, 10, 175, 0, 0, 0, 0, 0⟩]

/-- Witness for C4 at one monotone core with total_delta = 110. -/
theorem utilization_in_range_witness :
    ∃ q, (updateCPUPercentsFn ⟨some prevC4, [0]⟩ timesC4).percents[0]? = some q ∧
      0 ≤ q ∧ q ≤ 100 := by
  refine utilization_in_range prevC4 timesC4 [0] 0 rfl rfl ?_ (by decide) ?_
  · intro j hj
    have hj0 : j = 0 := by
      simp [timesC4] at hj
      omega
    subst hj0
    constructor
    · norm_num [prevC4, timesC4, List.getD]
    refine ⟨?_, ?_, ?_, ?_, ?_, ?_, ?_⟩ <;> norm_num [prevC4, timesC4, List.getD]
  · norm_num [coreTotalDelta, bucketSum, prevC4, timesC4, List.getD]

/-- C5 (amended): the very first delta-tracker invocation produces an
all-zero vector whose length is the cardinality of the raw sample. -/
theorem first_invocation_zero_vector (ps : List ℚ) (times : List TimesStat) :
    (updateCPUPercentsFn ⟨none, ps⟩ times).percents =
      List.replicate times.length 0 ∧
    (updateCPUPercentsFn ⟨none, ps⟩ times).percents.length = times.length ∧
    ∀ q ∈ (updateCPUPercentsFn ⟨none, ps⟩ times).percents, q = 0 := by
  refine ⟨rfl, ?_, ?_⟩
  · show (List.replicate times.length (0 : ℚ)).length = times.length
    exact List.length_replicate times.length 0
  · intro q hq
    exact List.eq_of_mem_replicate hq

def timesC5 : List TimesStat :=
  [⟨1, 0, 1, 0, 0, 0, 0, 0⟩, ⟨1, 0, 1, 0, 0, 0, 0, 0⟩]

/-- Witness for the amended C5 at a concrete two-core sample with a stale
one-entry vector: the result is the all-zero two-entry vector. -/
theorem first_invocation_zero_vector_witness :
    (updateCPUPercentsFn ⟨none, [5]⟩ timesC5).percents =
      List.replicate timesC5.length 0 ∧
    (0 : ℚ) = 0 := by
  have h := first_invocation_zero_vector [5] timesC5
  refine ⟨h.1, h.2.2 0 ?_⟩
  rw [h.1]
  exact List.mem_replicate.mpr ⟨by decide, rfl⟩

def cfgC5 : ConfigM := ⟨"/", ""⟩

def staticEnvC5 : StaticEnv := ⟨"host", [⟨"cpu model", 1⟩], some 1⟩

def sysC5 : SysEnv := ⟨"linux", "amd64", 2⟩

def probesC5 : ProbeEnv :=
  ⟨some ⟨8, 4, 4, 50⟩, some ⟨100, 50, 50, 50⟩, some [], none, some ⟨10⟩⟩

/-- C5 counterexample: a host with one physical core exposing two logical
CPUs.  The first invocation produces a vector of length 2, while the
snapshot assembled from the same environment reports a core count of 1. -/
theorem first_invocation_core_count_counterexample :
    (updateCPUPercentsFn ⟨none, []⟩ timesC5).percents = [0, 0] ∧
    Option.map (fun s => s.cpu.cores)
      (getStatsNonBlocking cfgC5 (initStaticInfo cfgC5 staticEnvC5) sysC5 probesC5
        (updateCPUPercentsFn ⟨none, []⟩ timesC5).percents) = some 1 ∧
    (updateCPUPercentsFn ⟨none, []⟩ timesC5).percents.length ≠ 1 := by
  refine ⟨rfl, rfl, ?_⟩
  decide

/-- C6: when the current sample is shorter than the previous one, the
tracker updates only the indices present in the current sample, keeps every
entry beyond that length at its last value, and the vector does not
shrink. -/
theorem shorter_sample_keeps_tail (prev times : List TimesStat) (ps : List ℚ)
    (hlt : times.length < prev.length) (hps : ps.length = prev.length) :
    (updateCPUPercentsFn ⟨some prev, ps⟩ times).percents.length = ps.length ∧
    (∀ j, times.length ≤ j →
      (updateCPUPercentsFn ⟨some prev, ps⟩ times).percents[j]? = ps[j]?) ∧
    (∀ j, j < times.length →
      (updateCPUPercentsFn ⟨some prev, ps⟩ times).percents[j]? =
        if 0 < coreTotalDelta prev times j then some (corePercent prev times j)
        else ps[j]?) := by
  refine ⟨?_, ?_, ?_⟩
  · show (cpuLoop prev times times.length 0 ps).length = ps.length
    exact cpuLoop_length prev times times.length 0 ps
  · intro j hj
    exact updateCPU_getElem?_untouched prev times ps j (Or.inl hj)
  · intro j hj
    exact updateCPU_getElem? prev times ps j hj (by omega) (by omega)

def prevC6 : List TimesStat :=
  [⟨0, 0, 0, 0, 0, 0, 0, 0⟩, ⟨0, 0, 0, 0, 0, 0, 0, 0⟩]

def timesC6 : List TimesStat := [⟨75, 0, 25, 0, 0, 0, 0, 0⟩]

/-- Witness for C6: two cores shrink to one; index 1 keeps its old value
7 and the length stays 2. -/
theorem shorter_sample_keeps_tail_witness :
    (updateCPUPercentsFn ⟨some prevC6, [0, 7]⟩ timesC6).percents.length = 2 ∧
    (updateCPUPercentsFn ⟨some prevC6, [0, 7]⟩ timesC6).percents[1]? = some 7 := by
  have h := shorter_sample_keeps_tail prevC6 timesC6 [0, 7] (by decide) rfl
  exact ⟨h.1, h.2.1 1 (by decide)⟩

lemma runTicks_cons (cfg : ConfigM) (static : StaticInfo) (sys : SysEnv)
    (st : Option Stats × CPUState) (a : TickInput) (l : List TickInput) :
    runTicks cfg static sys st (a :: l) =
      runTicks cfg static sys (tick1 cfg static sys st a) l :=
  rfl

/-- C1: a tick whose mandatory memory or disk probe fails publishes
nothing.  The cache after such a tick equals the cache before it; if every
tick so far failed the same way from an empty cache, the cache is still
empty; and in general the cache holds exactly the snapshot assembled by the
most recent tick whose mandatory probes both succeeded. -/
theorem mandatory_failure_preserves_cache (cfg : ConfigM) (static : StaticInfo)
    (sys : SysEnv) (st : Option Stats × CPUState) (inputs : List TickInput)
    (last : TickInput) (hbad : badInput last) :
    (runTicks cfg static sys st (inputs ++ [last])).1 =
      (runTicks cfg static sys st inputs).1 ∧
    (st.1 = none → (∀ x ∈ inputs, badInput x) →
      (runTicks cfg static sys st (inputs ++ [last])).1 = none) ∧
    (∀ pre g suf, inputs = pre ++ g :: suf → ¬ badInput g →
      (∀ x ∈ suf, badInput x) →
      (runTicks cfg static sys st (inputs ++ [last])).1 =
        getStatsNonBlocking cfg static sys g.probes
          (getCPUPercents
            (cpuStep (runTicks cfg static sys st pre).2 g.cpuTimes))) := by
  have hstep : (runTicks cfg static sys st (inputs ++ [last])).1 =
      (runTicks cfg static sys st inputs).1 := by
    rw [runTicks_append]
    exact tick1_fst_of_bad cfg static sys _ last hbad
  refine ⟨hstep, ?_, ?_⟩
  · intro hnone hall
    rw [hstep, runTicks_fst_of_allbad cfg static sys inputs st hall, hnone]
  · intro pre g suf hsplit hgood hsuf
    subst hsplit
    rw [List.append_assoc, runTicks_append, List.cons_append, runTicks_cons,
      runTicks_fst_of_allbad cfg static sys (suf ++ [last]) _ ?_,
      tick1_fst_of_good cfg static sys _ g hgood]
    intro x hx
    rcases List.mem_append.mp hx with hx | hx
    · exact hsuf x hx
    · rcases List.mem_singleton.mp hx with rfl
      exact hbad

def cfgC1 : ConfigM := ⟨"/", ""⟩

def staticC1 : StaticInfo := ⟨"host", "cpu model", 4⟩

def sysC1 : SysEnv := ⟨"linux", "amd64", 8⟩

def goodTickC1 : TickInput :=
  ⟨none, ⟨some ⟨8, 4, 4, 50⟩, some ⟨100, 50, 50, 50⟩,
    some [⟨"eth0", 100, 200⟩], none, some ⟨10⟩⟩⟩

def badTickC1 : TickInput :=
  ⟨none, ⟨none, some ⟨100, 50, 50, 50⟩, none, none, none⟩⟩

def initStateC1 : Option Stats × CPUState := (none, ⟨none, []⟩)

/-- Witness for C1: a successful tick followed by a tick whose memory probe
fails; the failed tick leaves the cache at the first tick's snapshot. -/
theorem mandatory_failure_preserves_cache_witness :
    (runTicks cfgC1 staticC1 sysC1 initStateC1 ([goodTickC1] ++ [badTickC1])).1 =
      (runTicks cfgC1 staticC1 sysC1 initStateC1 [goodTickC1]).1 ∧
    (runTicks cfgC1 staticC1 sysC1 initStateC1 ([goodTickC1] ++ [badTickC1])).1 =
      getStatsNonBlocking cfgC1 staticC1 sysC1 goodTickC1.probes
        (getCPUPercents
          (cpuStep (runTicks cfgC1 staticC1 sysC1 initStateC1 []).2
            goodTickC1.cpuTimes)) := by
  have h := mandatory_failure_preserves_cache cfgC1 staticC1 sysC1 initStateC1
    [goodTickC1] badTickC1 (Or.inl rfl)
  refine ⟨h.1, h.2.2 [] goodTickC1 [] rfl ?_ ?_⟩
  · intro hb
    rcases hb with hb | hb <;> exact Option.noConfusion hb
  · intro x hx
    exact absurd hx (List.not_mem_nil x)

/-- C7: when the memory and disk probes succeed, a snapshot is assembled
and published even if every other probe fails; the failed readings appear
as zero uptime, an empty network sequence and an absent GPU, while the
successful readings are carried over unchanged. -/
theorem nonmandatory_failure_still_publishes (cfg : ConfigM) (static : StaticInfo)
    (sys : SysEnv) (env : ProbeEnv) (m : MemInfo) (d : DiskInfo) (ps : List ℚ)
    (hm : env.memInfo = some m) (hd : env.diskInfo = some d) :
    (∃ s, getStatsNonBlocking cfg static sys env ps = some s ∧
      s.memory = ⟨m.total, m.used, m.available, m.usedPercent⟩ ∧
      s.disk = ⟨cfg.diskPath, d.total, d.used, d.free, d.usedPercent⟩ ∧
      s.cpu.percent = ps ∧
      s.gpu = env.gpuStats ∧
      (env.hostInfo = none → s.uptime = 0) ∧
      (env.netInfo = none → s.network = [])) ∧
    (∀ st : Option Stats × CPUState, ∀ ct,
      ((tick1 cfg static sys st ⟨ct, env⟩).1).isSome) := by
  constructor
  · unfold getStatsNonBlocking
    rw [hm, hd]
    refine ⟨_, rfl, rfl, rfl, rfl, rfl, ?_, ?_⟩
    · intro hh
      show (Option.map HostInfo.uptime env.hostInfo).getD 0 = 0
      rw [hh]
      rfl
    · intro hn
      show buildNetStats env.netInfo = []
      rw [hn]
      rfl
  · intro st ct
    have hgood : ¬ badInput ⟨ct, env⟩ := by
      rintro (hb | hb)
      · rw [show (TickInput.mk ct env).probes = env from rfl, hm] at hb
        exact Option.noConfusion hb
      · rw [show (TickInput.mk ct env).probes = env from rfl, hd] at hb
        exact Option.noConfusion hb
    rw [tick1_fst_of_good cfg static sys st ⟨ct, env⟩ hgood]
    rcases hr : getStatsNonBlocking cfg static sys env
        (getCPUPercents (cpuStep st.2 ct)) with - | s
    · rcases (getStatsNonBlocking_eq_none_iff _ _ _ _ _).mp hr with hb | hb
      · rw [hm] at hb
        exact Option.noConfusion hb
      · rw [hd] at hb
        exact Option.noConfusion hb
    · rfl

def envC7 : ProbeEnv := ⟨some ⟨8, 4, 4, 50⟩, some ⟨100, 50, 50, 50⟩, none, none, none⟩

/-- Witness for C7: memory and disk succeed while network, GPU and uptime
all fail; a snapshot is still produced. -/
theorem nonmandatory_failure_still_publishes_witness :
    (∃ s, getStatsNonBlocking cfgC1 staticC1 sysC1 envC7 [] = some s ∧
      s.memory = ⟨8, 4, 4, 50⟩ ∧
      s.disk = ⟨"/", 100, 50, 50, 50⟩ ∧
      s.cpu.percent = [] ∧
      s.gpu = none ∧
      (envC7.hostInfo = none → s.uptime = 0) ∧
      (envC7.netInfo = none → s.network = [])) ∧
    (∀ st : Option Stats × CPUState, ∀ ct,
      ((tick1 cfgC1 staticC1 sysC1 st ⟨ct, envC7⟩).1).isSome) :=
  nonmandatory_failure_still_publishes cfgC1 staticC1 sysC1 envC7
    ⟨8, 4, 4, 50⟩ ⟨100, 50, 50, 50⟩ [] rfl rfl

/-- C8: the pull response is determined solely by cache emptiness: the
retryable not-yet-available response appears exactly when the cache is
empty, otherwise the cached snapshot is returned unmodified; and once the
cache holds a snapshot, no sequence of further ticks empties it again. -/
theorem pull_response_cache_determined (cache : Option Stats) :
    (handleStats cache = PullResponse.unavailable ↔ cache = none) ∧
    (∀ s, cache = some s → handleStats cache = PullResponse.ok s) ∧
    (∀ (cfg : ConfigM) (static : StaticInfo) (sys : SysEnv) (cst : CPUState)
      (inputs : List TickInput), cache.isSome →
      ((runTicks cfg static sys (cache, cst) inputs).1).isSome) := by
  refine ⟨?_, ?_, ?_⟩
  · rcases cache with - | s
    · exact ⟨fun _ => rfl, fun _ => rfl⟩
    · exact ⟨fun h => PullResponse.noConfusion h, fun h => Option.noConfusion h⟩
  · intro s hs
    rw [hs]
    rfl
  · intro cfg static sys cst inputs h
    exact runTicks_fst_isSome cfg static sys inputs (cache, cst) h

def statsC8 : Stats :=
  ⟨"host", 10, "linux", "amd64", ⟨"cpu model", 4, 8, [50]⟩, ⟨8, 4, 4, 50⟩,
    ⟨"/", 100, 50, 50, 50⟩, [], none⟩

/-- Witness for C8: a populated cache yields the snapshot unmodified, and
stays populated across a failing tick. -/
theorem pull_response_cache_determined_witness :
    handleStats (some statsC8) = PullResponse.ok statsC8 ∧
    ((runTicks cfgC1 staticC1 sysC1 (some statsC8, ⟨none, []⟩) [badTickC1]).1).isSome := by
  have h := pull_response_cache_determined (some statsC8)
  exact ⟨h.2.1 statsC8 rfl, h.2.2 cfgC1 staticC1 sysC1 ⟨none, []⟩ [badTickC1] rfl⟩

/-- Evaluation scheme for parseMemoryValue: once the suffix split and the
float syntax of the remaining string are computed, the result is the
truncated product. -/
lemma parseMemoryValue_eval (s rest : String) (mult : ℕ) (f : FloatSyntax) (v : ℕ)
    (h1 : memSuffixSplit (goToLower (goTrim s)) = (mult, rest))
    (h2 : parseFloatSyntax (goTrim rest) = some f)
    (h3 : ratOfFloatSyntax f * (mult : ℚ) = ((v : ℤ) : ℚ)) :
    parseMemoryValue s = v := by
  unfold parseMemoryValue
  rw [h1]
  show goUint64OfRat (parseFloatD (goTrim rest) * ((mult : ℕ) : ℚ)) = v
  rw [parseFloatD, parseGoFloat, h2]
  show goUint64OfRat (ratOfFloatSyntax f * ((mult : ℕ) : ℚ)) = v
  rw [goUint64OfRat, h3, Int.floor_intCast, Int.toNat_natCast]

/-- C9: the GPU memory-value normalizer maps 8GB to 8 * 1024 ^ 3 bytes and
512MB to 512 * 1024 ^ 2 bytes; suffix matching is case-insensitive and the
kb suffix uses the 1024 multiplier. -/
theorem parseMemoryValue_units :
    parseMemoryValue "8GB" = 8 * 1024 * 1024 * 1024 ∧
    parseMemoryValue "512MB" = 512 * 1024 * 1024 ∧
    parseMemoryValue "8gB" = 8 * 1024 * 1024 * 1024 ∧
    parseMemoryValue "4KB" = 4 * 1024 := by
  refine ⟨?_, ?_, ?_, ?_⟩
  · refine parseMemoryValue_eval "8GB" "8" 1073741824 ⟨false, 8, 0, 0, false, 0⟩ _
      (by decide) (by decide) ?_
    norm_num [ratOfFloatSyntax]
  · refine parseMemoryValue_eval "512MB" "512" 1048576 ⟨false, 512, 0, 0, false, 0⟩ _
      (by decide) (by decide) ?_
    norm_num [ratOfFloatSyntax]
  · refine parseMemoryValue_eval "8gB" "8" 1073741824 ⟨false, 8, 0, 0, false, 0⟩ _
      (by decide) (by decide) ?_
    norm_num [ratOfFloatSyntax]
  · refine parseMemoryValue_eval "4KB" "4" 1024 ⟨false, 4, 0, 0, false, 0⟩ _
      (by decide) (by decide) ?_
    norm_num [ratOfFloatSyntax]

/-- C10: the normalizer is total and reports no error.  With no recognized
suffix the multiplier is 1 and the whole normalized string is the numeric
part; and whenever the numeric part fails to parse, the discarded
ParseFloat error leaves the value 0, so the result is 0. -/
theorem parseMemoryValue_total (s : String) :
    (goHasSuffix (goToLower (goTrim s)) "gb" = false →
     goHasSuffix (goToLower (goTrim s)) "mb" = false →
     goHasSuffix (goToLower (goTrim s)) "kb" = false →
      parseMemoryValue s =
        goUint64OfRat (parseFloatD (goTrim (goToLower (goTrim s))) * ((1 : ℕ) : ℚ))) ∧
    (parseGoFloat (goTrim (memSuffixSplit (goToLower (goTrim s))).2) = none →
      parseMemoryValue s = 0) := by
  constructor
  · intro hg hm hk
    unfold parseMemoryValue
    rw [show memSuffixSplit (goToLower (goTrim s)) = (1, goToLower (goTrim s)) by
      unfold memSuffixSplit
      rw [hg, hm, hk]
      simp]
  · intro hfail
    unfold parseMemoryValue
    rw [parseFloatD, hfail]
    show goUint64OfRat (0 * _) = 0
    rw [zero_mul, goUint64OfRat]
    norm_num

/-- Witness for C10 at the unparsable suffix-free input foo: multiplier 1
and result 0. -/
theorem parseMemoryValue_total_witness :
    parseMemoryValue "foo" =
      goUint64OfRat (parseFloatD (goTrim (goToLower (goTrim "foo"))) * ((1 : ℕ) : ℚ)) ∧
    parseMemoryValue "foo" = 0 := by
  have h := parseMemoryValue_total "foo"
  exact ⟨h.1 (by decide) (by decide) (by decide), h.2 (by decide)⟩

def cardC3 : SysfsCard :=
  ⟨"card0", some "0x1002\n", some "Radeon RX 580\n", some "8589934592\n",
    some "1048576\n", [], some "12\n"⟩

def envC3 : GPUEnv :=
  ⟨"linux", some "rocm-smi found no device", some [cardC3], none, none⟩

/-- C3 counterexample: on Linux the stage-1 diagnostic command succeeds but
its output names no device, and the probe then skips the stage-2 filesystem
fallback even though that stage would name a device; the probe returns
absent instead of stopping at the first stage that yields a named device. -/
theorem gpu_fallback_chain_counterexample :
    Option.map GPUStats.name (getAMDFromSysfs envC3.sysfs) = some "Radeon RX 580" ∧
    parseRocmSMI "rocm-smi found no device" = none ∧
    getGPUStats envC3 = none := by
  refine ⟨?_, ?_, ?_⟩ <;> decide

/-- C3 (amended): the probe tries, in order, the vendor diagnostic command
and its filesystem fallback (on Linux), the second vendor diagnostic
command, and the management-interface fallback (on Windows), stopping at
the first consulted backend that yields a named device and returning absent
when all of them yield none — except that the filesystem fallback is
consulted only when the stage-1 command itself fails to run, not when it
runs and names no device.  When the AMD stage yields nothing and the
nvidia-smi output parses with at least five fields, the result is exactly
the parsed fields, with the MiB memory values multiplied by 1024 * 1024 in
uint64 arithmetic. -/
theorem gpu_fallback_chain (env : GPUEnv) :
    (env.goos = "linux" → ∀ g, getAMDGPU env = some g → getGPUStats env = some g) ∧
    ((env.goos = "linux" → getAMDGPU env = none) →
      ∀ g, getNVIDIAGPU env.nvidia = some g → getGPUStats env = some g) ∧
    ((env.goos = "linux" → getAMDGPU env = none) → getNVIDIAGPU env.nvidia = none →
      getGPUStats env =
        if env.goos = "windows" then getWindowsGPU env.windowsWMI else none) ∧
    (env.rocm = none → getAMDGPU env = getAMDFromSysfs env.sysfs) ∧
    (∀ output, env.rocm = some output → getAMDGPU env = parseRocmSMI output) ∧
    (∀ output, env.nvidia = some output →
      5 ≤ (goSplit (goTrim output) ", ").length →
      getNVIDIAGPU env.nvidia =
        some
          { name := (goSplit (goTrim output) ", ").getD 0 ""
            memoryTotal :=
              parseUintD ((goSplit (goTrim output) ", ").getD 1 "") * 1024 * 1024 % 2 ^ 64
            memoryUsed :=
              parseUintD ((goSplit (goTrim output) ", ").getD 2 "") * 1024 * 1024 % 2 ^ 64
            usedPercent := parseFloatD ((goSplit (goTrim output) ", ").getD 3 "")
            temperature := parseFloatD ((goSplit (goTrim output) ", ").getD 4 "") }) := by
  refine ⟨?_, ?_, ?_, ?_, ?_, ?_⟩
  · intro hl g hg
    unfold getGPUStats
    rw [if_pos hl, hg]
  · intro hamd g hg
    unfold getGPUStats
    by_cases hl : env.goos = "linux"
    · rw [if_pos hl, hamd hl, hg]
    · rw [if_neg hl, hg]
  · intro hamd hnv
    unfold getGPUStats
    by_cases hl : env.goos = "linux"
    · rw [if_pos hl, hamd hl, hnv]
    · rw [if_neg hl, hnv]
  · intro hr
    unfold getAMDGPU
    rw [hr]
  · intro output hr
    unfold getAMDGPU
    rw [hr]
  · intro output hnv hlen
    rw [hnv]
    show (if (goSplit (goTrim output) ", ").length < 5 then (none : Option GPUStats)
      else some
        { name := (goSplit (goTrim output) ", ").getD 0 ""
          memoryTotal :=
            parseUintD ((goSplit (goTrim output) ", ").getD 1 "") * 1024 * 1024 % 2 ^ 64
          memoryUsed :=
            parseUintD ((goSplit (goTrim output) ", ").getD 2 "") * 1024 * 1024 % 2 ^ 64
          usedPercent := parseFloatD ((goSplit (goTrim output) ", ").getD 3 "")
          temperature := parseFloatD ((goSplit (goTrim output) ", ").getD 4 "") }) =
      some
        { name := (goSplit (goTrim output) ", ").getD 0 ""
          memoryTotal :=
            parseUintD ((goSplit (goTrim output) ", ").getD 1 "") * 1024 * 1024 % 2 ^ 64
          memoryUsed :=
            parseUintD ((goSplit (goTrim output) ", ").getD 2 "") * 1024 * 1024 % 2 ^ 64
          usedPercent := parseFloatD ((goSplit (goTrim output) ", ").getD 3 "")
          temperature := parseFloatD ((goSplit (goTrim output) ", ").getD 4 "") }
    rw [if_neg (Nat.not_lt.mpr hlen)]

def envC3w : GPUEnv := ⟨"linux", none, none, some "GPU X, 4, 2, 50, 60", none⟩

/-- Witness for C3 (amended): stage 1 fails to run, stage 2 finds no
directory listing, and stage 3 succeeds; the result is exactly the parsed
nvidia-smi fields with the MiB values converted to bytes. -/
theorem gpu_fallback_chain_witness :
    getGPUStats envC3w =
      some ⟨"GPU X", 4194304, 2097152, parseFloatD "50", parseFloatD "60"⟩ := by
  have h := (gpu_fallback_chain envC3w).2.1
  exact h (fun _ => rfl) _ rfl

end SysDash
